import Mathlib

/-!
Verification of the correlation and geospatial filtering engine of the
airport tracking and analytics system.

The development shallowly embeds the JavaScript source into Lean:

* numbers are modelled as rationals (exact arithmetic standing in for the
  IEEE doubles of the source);
* nullable JavaScript values are modelled as `Option`;
* JavaScript truthiness tests (`x ? a : b`, `x || d`) are modelled by
  explicit helpers that treat `none`, `0`, the empty string and `false`
  as falsy;
* the transcendental trigonometry of the haversine distance is modelled
  over the reals; where a rational-valued computation of the source calls
  the cosine (the bounding-box tiler), the embedding is parameterised by
  the cosine-of-degrees function it uses;
* network fetches are modelled as functions of an explicit response value,
  with one constructor per failure shape distinguished by the source.
-/

namespace AirportTracking

/-! ## JavaScript value helpers -/

/-- Truthiness of a nullable number: `null`, `undefined` and `0` are falsy. -/
def truthyQ : Option ℚ → Bool
  | none => false
  | some q => q != 0

/-- Truthiness of a nullable string: `null`, `undefined` and `""` are falsy. -/
def truthyS : Option String → Bool
  | none => false
  | some s => s != ""

/-- Model of `v || d` for nullable numbers (`null`/`0` fall back to `d`). -/
def jsOrQ (v : Option ℚ) (d : ℚ) : ℚ :=
  match v with
  | some q => if q = 0 then d else q
  | none => d

/-- Model of `v || d` for nullable strings (`null`/`""` fall back to `d`). -/
def jsOrS (v : Option String) (d : String) : String :=
  match v with
  | some s => if s = "" then d else s
  | none => d

/-- Model of `v || d` for plain strings (`""` falls back to `d`). -/
def jsOrStr (v d : String) : String := if v = "" then d else v

/-- Strip leading and trailing whitespace from a character list. -/
def trimChars (l : List Char) : List Char :=
  ((l.dropWhile Char.isWhitespace).reverse.dropWhile Char.isWhitespace).reverse

/-- Model of `String.prototype.trim`. -/
def jsTrim (s : String) : String := ⟨trimChars s.data⟩

/-- Model of `String.prototype.includes` on character lists: does `l`
contain `sub` as a contiguous substring? -/
def hasSubstr : List Char → List Char → Bool
  | l, sub =>
    sub.isPrefixOf l ||
      match l with
      | [] => false
      | _ :: t => hasSubstr t sub

/-! ## GeoMath: apiclient.js `toRad`, `calculateDistance` (haversine) -/

/-- `toRad(degrees)`: degrees to radians. -/
noncomputable def toRad (degrees : ℝ) : ℝ := degrees * Real.pi / 180

/-- Model of `Math.atan2(y, x)` (full-quadrant arctangent). -/
noncomputable def atan2 (y x : ℝ) : ℝ :=
  if 0 < x then Real.arctan (y / x)
  else if x < 0 then
    (if 0 ≤ y then Real.arctan (y / x) + Real.pi
     else Real.arctan (y / x) - Real.pi)
  else if 0 < y then Real.pi / 2
  else if y < 0 then -(Real.pi / 2)
  else 0

/-- `calculateDistance(lat1, lon1, lat2, lon2)`: haversine great-circle
distance in km with Earth radius 6371 km. -/
noncomputable def calculateDistance (lat1 lon1 lat2 lon2 : ℝ) : ℝ :=
  let R : ℝ := 6371
  let dLat := toRad (lat2 - lat1)
  let dLon := toRad (lon2 - lon1)
  let a := Real.sin (dLat / 2) * Real.sin (dLat / 2) +
    Real.cos (toRad lat1) * Real.cos (toRad lat2) *
      (Real.sin (dLon / 2) * Real.sin (dLon / 2))
  let c := 2 * atan2 (Real.sqrt a) (Real.sqrt (1 - a))
  R * c

/-! ## Data model -/

/-- One raw OpenSky state vector, by field offset: index 1 = callsign,
2 = origin country, 4 = last contact, 5 = longitude, 6 = latitude,
7 = barometric altitude (m), 8 = on-ground flag, 9 = velocity (m/s),
10 = heading, 11 = vertical rate.  Every field may be absent. -/
structure RawState where
  callsign : Option String
  origin_country : Option String
  last_contact : Option ℤ
  longitude : Option ℚ
  latitude : Option ℚ
  baro_altitude : Option ℚ
  on_ground : Option Bool
  velocity : Option ℚ
  heading : Option ℚ
  vertical_rate : Option ℚ
deriving DecidableEq, Repr

/-- A normalized live position, as produced by the transform inside
`getOpenSkyFlights` in apiclient.js. -/
structure Flight where
  callsign : String
  origin_country : Option String
  longitude : Option ℚ
  latitude : Option ℚ
  altitude : ℚ
  velocity : ℚ
  heading : ℚ
  vertical_rate : ℚ
  on_ground : Bool
  last_contact : Option ℤ
  timestamp : String
deriving DecidableEq, Repr

/-- A flight with its distance from the airport reference point and its
position index in the fetched list (the second `.map` of
`getOpenSkyFlights` spreads these onto the flight object). -/
structure TrackedFlight where
  flight : Flight
  distance : ℚ
  index : ℕ
deriving DecidableEq, Repr

/-- Aircraft identity block of a schedule record. -/
structure AircraftInfo where
  registration : Option String
  iata : Option String
  icao : Option String
deriving DecidableEq, Repr

/-- Departure or arrival block of a schedule record.  Times are epoch
milliseconds (the source carries ISO strings derived from epoch values). -/
structure FlightEndpoint where
  airport : Option String
  iata : Option String
  scheduled : Option ℤ
  estimated : Option ℤ
  actual : Option ℤ
  terminal : Option String
  gate : Option String
deriving DecidableEq, Repr

/-- One schedule record from the AviationStack feed (or synthesized). -/
structure ScheduleRecord where
  flightNumber : String
  airline : String
  airlineCode : String
  departure : FlightEndpoint
  arrival : FlightEndpoint
  status : String
  aircraft : AircraftInfo
deriving DecidableEq, Repr

/-! ## Normalizer: the first `.map` of `getOpenSkyFlights` -/

/-- Transform one raw state into a normalized flight.
`nowIso` models `new Date().toISOString()`. -/
def normalizeState (nowIso : String) (s : RawState) : Flight where
  callsign := if truthyS s.callsign then jsTrim (s.callsign.getD "") else "UNKNOWN"
  origin_country := s.origin_country
  longitude := s.longitude
  latitude := s.latitude
  altitude := if truthyQ s.baro_altitude then s.baro_altitude.getD 0 * 3.28084 else 0
  velocity := if truthyQ s.velocity then s.velocity.getD 0 * 1.94384 else 0
  heading := if truthyQ s.heading then s.heading.getD 0 else 0
  vertical_rate := if truthyQ s.vertical_rate then s.vertical_rate.getD 0 else 0
  on_ground := s.on_ground.getD false
  last_contact := s.last_contact
  timestamp := nowIso

/-! ## ZoneFilter: distance attachment, stable sort, radius filter -/

/-- Attach distance and index to each normalized flight, in input order.
`dist` abstracts `calculateDistance(airportLat, airportLon, lat, lon)`. -/
def attachDistances (dist : Flight → ℚ) (l : List Flight) : List TrackedFlight :=
  l.enum.map (fun p => ⟨p.2, dist p.2, p.1⟩)

/-- Insertion step of the stable sort: a new element goes after every
element it does not strictly precede, which is exactly the stable order
of `Array.prototype.sort` with comparator `(a, b) => a.distance - b.distance`. -/
def insertByDistance (x : TrackedFlight) : List TrackedFlight → List TrackedFlight
  | [] => [x]
  | y :: ys => if x.distance < y.distance then x :: y :: ys else y :: insertByDistance x ys

/-- Stable sort by ascending distance (model of the `flights.sort` call). -/
def sortByDistance (l : List TrackedFlight) : List TrackedFlight :=
  l.foldl (fun acc x => insertByDistance x acc) []

/-- The zone pipeline applied to normalized flights: attach distances,
sort ascending, keep flights with `distance <= radius`. -/
def filterAndSortFlights (dist : Flight → ℚ) (radius : ℚ) (l : List Flight) :
    List TrackedFlight :=
  (sortByDistance (attachDistances dist l)).filter (fun t => t.distance ≤ radius)

/-- Shapes of the OpenSky `/states/all` response distinguished by
`getOpenSkyFlights`: a transport error caught by the `catch` block, a
payload without a `states` array, or a payload with a states array whose
entries may be null. -/
inductive OpenSkyResponse where
  | transportError : OpenSkyResponse
  | missingStates : OpenSkyResponse
  | states : List (Option RawState) → OpenSkyResponse

/-- `getOpenSkyFlights`, as a function of the response: on failure or a
missing/empty states array it returns the empty list, otherwise it
normalizes, attaches distances, sorts and filters to the airport zone. -/
def getOpenSkyFlights (dist : Flight → ℚ) (radius : ℚ) (nowIso : String) :
    OpenSkyResponse → List TrackedFlight
  | .transportError => []
  | .missingStates => []
  | .states l =>
    let validStates := l.filterMap id
    if validStates.length = 0 then []
    else filterAndSortFlights dist radius (validStates.map (normalizeState nowIso))

/-! ## Deduplicator: apiclient.js `removeDuplicateFlights` -/

/-- The fields of a flight object read by `removeDuplicateFlights`. -/
structure DedupFlight where
  callsign : String
  latitude : ℚ
  longitude : ℚ
deriving DecidableEq, Repr

/-- Three-digit zero padding of the fractional part. -/
def pad3 (k : ℕ) : String :=
  if k < 10 then "00" ++ toString k
  else if k < 100 then "0" ++ toString k
  else toString k

/-- Model of `Number.prototype.toFixed(3)`: sign, then the value rounded
to three decimals (ties away from zero), rendered with exactly three
fractional digits. -/
def fixed3 (q : ℚ) : String :=
  (if q < 0 then "-" else "") ++
    toString ((⌊|q| * 1000 + 1 / 2⌋).toNat / 1000) ++ "." ++
    pad3 ((⌊|q| * 1000 + 1 / 2⌋).toNat % 1000)

/-- The dedup fingerprint `callsign + "_" + lat.toFixed(3) + "_" + lon.toFixed(3)`. -/
def fingerprint (f : DedupFlight) : String :=
  f.callsign ++ "_" ++ fixed3 f.latitude ++ "_" ++ fixed3 f.longitude

/-- Loop of `removeDuplicateFlights` with the `seen` set made explicit. -/
def removeDupAux : List DedupFlight → List String → List DedupFlight
  | [], _ => []
  | f :: fs, seen =>
    if seen.contains (fingerprint f) then removeDupAux fs seen
    else f :: removeDupAux fs (fingerprint f :: seen)

/-- `removeDuplicateFlights(flights)`: keep the first occurrence of each
fingerprint, drop later ones. -/
def removeDuplicateFlights (flights : List DedupFlight) : List DedupFlight :=
  removeDupAux flights []

/-! ## ZoneTiler: apiclient.js `createBoundingBox`, `calculateBoundingBoxes` -/

/-- A bounding box in OpenSky query order: lamin, lomin, lamax, lomax. -/
structure Box where
  lamin : ℚ
  lomin : ℚ
  lamax : ℚ
  lomax : ℚ
deriving DecidableEq, Repr

/-- `createBoundingBox(centerLat, centerLon, halfSizeKm)`.  `cosDeg`
abstracts `Math.cos(this.toRad(x))`, the cosine of an angle in degrees. -/
def createBoundingBox (cosDeg : ℚ → ℚ) (centerLat centerLon halfSizeKm : ℚ) : Box :=
  let latDelta := halfSizeKm / 111.32
  let lonDelta := halfSizeKm / (111.32 * cosDeg centerLat)
  { lamin := max (-90) (centerLat - latDelta)
    lomin := max (-180) (centerLon - lonDelta)
    lamax := min 90 (centerLat + latDelta)
    lomax := min 180 (centerLon + lonDelta) }

/-- `calculateBoundingBoxes(centerLat, centerLon, radiusKm)`: one box up
to the 500 km cap, otherwise an n-by-n grid of half-size boxes whose
centers step by 450 km (500 minus the 50 km overlap) in each axis. -/
def calculateBoundingBoxes (cosDeg : ℚ → ℚ) (centerLat centerLon radiusKm : ℚ) :
    List Box :=
  if radiusKm ≤ 500 then [createBoundingBox cosDeg centerLat centerLon radiusKm]
  else
    let numBoxes := (⌈radiusKm / 500⌉).toNat
    ((List.range numBoxes).map (fun (i : ℕ) =>
      (List.range numBoxes).map (fun (j : ℕ) =>
        let latOffset := ((i : ℚ) - ((numBoxes : ℚ) - 1) / 2) * (500 - 50)
        let lonOffset := ((j : ℚ) - ((numBoxes : ℚ) - 1) / 2) * (500 - 50)
        let boxLat := centerLat + latOffset / 111.32
        let boxLon := centerLon + lonOffset / (111.32 * cosDeg centerLat)
        createBoundingBox cosDeg boxLat boxLon (500 / 2)))).flatten

/-! ## Schedule feed: apiclient.js `getAviationStackFlights` -/

/-- The three built-in sample schedules returned when the schedule feed is
unavailable.  `now` models `Date.now()` in epoch milliseconds. -/
def generateSampleFlights (now : ℤ) : List ScheduleRecord :=
  [{ flightNumber := "LH123"
     airline := "Lufthansa"
     airlineCode := "LH"
     departure :=
       { airport := some "Frankfurt am Main", iata := some "FRA"
         scheduled := some (now + 3600000), estimated := some (now + 3700000)
         actual := none, terminal := some "Terminal 1", gate := some "A5" }
     arrival :=
       { airport := some "Berlin Brandenburg", iata := some "BER"
         scheduled := some (now + 5400000), estimated := some (now + 5500000)
         actual := none, terminal := some "Terminal 1", gate := some "B3" }
     status := "scheduled"
     aircraft := { registration := some "D-AIDE", iata := some "A320", icao := some "A320" } },
   { flightNumber := "DL456"
     airline := "Delta Air Lines"
     airlineCode := "DL"
     departure :=
       { airport := some "Frankfurt am Main", iata := some "FRA"
         scheduled := some (now + 7200000), estimated := some (now + 7300000)
         actual := none, terminal := some "Terminal 2", gate := some "C12" }
     arrival :=
       { airport := some "New York John F Kennedy", iata := some "JFK"
         scheduled := some (now + 36000000), estimated := some (now + 36100000)
         actual := none, terminal := some "Terminal 4", gate := some "A20" }
     status := "scheduled"
     aircraft := { registration := some "N123DA", iata := some "A350", icao := some "A350" } },
   { flightNumber := "BA789"
     airline := "British Airways"
     airlineCode := "BA"
     departure :=
       { airport := some "Frankfurt am Main", iata := some "FRA"
         scheduled := some (now - 600000), estimated := some (now - 500000)
         actual := some (now - 480000), terminal := some "Terminal 3", gate := some "E8" }
     arrival :=
       { airport := some "London Heathrow", iata := some "LHR"
         scheduled := some (now + 3600000), estimated := some (now + 3500000)
         actual := none, terminal := some "Terminal 5", gate := some "B15" }
     status := "active"
     aircraft := { registration := some "G-XWBA", iata := some "B787", icao := some "B787" } }]

/-- Shapes of the AviationStack response distinguished by
`getAviationStackFlights`: transport error, missing `response.data`, an
in-payload `error` field, a missing or empty `data` array, or a data
array (modelled post-transformation as schedule records). -/
inductive AviationStackResponse where
  | transportError : AviationStackResponse
  | missingData : AviationStackResponse
  | errorField : AviationStackResponse
  | emptyData : AviationStackResponse
  | flights : List ScheduleRecord → AviationStackResponse

/-- `getAviationStackFlights`, as a function of the configured key and the
response: without a key, or on any failure shape, it falls back to the
sample data; it never returns an error. -/
def getAviationStackFlights (hasKey : Bool) (now : ℤ) (resp : AviationStackResponse) :
    List ScheduleRecord :=
  if !hasKey then generateSampleFlights now
  else
    match resp with
    | .transportError => generateSampleFlights now
    | .missingData => generateSampleFlights now
    | .errorField => generateSampleFlights now
    | .emptyData => generateSampleFlights now
    | .flights l => l

/-! ## Correlator: the schedule-matching block of `getLiveFlights` -/

/-- Lookup in the schedule map, modelled as an association list in
insertion order with unique keys (`scheduleMap[callsign]`). -/
def jsObjectLookup (m : List (String × ScheduleRecord)) (k : String) :
    Option ScheduleRecord :=
  (m.find? (fun p => p.1 == k)).map Prod.snd

/-- The fallback predicate of the `for ... of Object.entries(scheduleMap)`
loop: the map key contains the first two characters of the callsign, or
the aircraft registration equals the callsign. -/
def fallbackMatch (callsign : String) (p : String × ScheduleRecord) : Bool :=
  hasSubstr p.1.data (callsign.take 2).data || p.2.aircraft.registration == some callsign

/-- The placeholder schedule synthesized when no schedule matches. -/
def placeholderSchedule (callsign : String) : ScheduleRecord where
  flightNumber := callsign
  airline := "Unknown Airline"
  airlineCode := "UNK"
  departure :=
    { airport := some "Unknown Airport", iata := some "N/A"
      scheduled := none, estimated := none, actual := none
      terminal := some "N/A", gate := some "N/A" }
  arrival :=
    { airport := some "Unknown Airport", iata := some "N/A"
      scheduled := none, estimated := none, actual := none
      terminal := some "N/A", gate := some "N/A" }
  status := "in-flight"
  aircraft := { registration := some callsign, iata := some "UNK", icao := some "UNK" }

/-- The inline matching block of `getLiveFlights`: exact key lookup, then
the first entry matching the fallback heuristic in insertion order, then
the synthesized placeholder. -/
def matchSchedule (scheduleMap : List (String × ScheduleRecord)) (callsign : String) :
    ScheduleRecord :=
  match jsObjectLookup scheduleMap callsign with
  | some s => s
  | none =>
    match scheduleMap.find? (fallbackMatch callsign) with
    | some p => p.2
    | none => placeholderSchedule callsign

/-! ## StatusResolver -/

/-- `determineStatusFromOpenSky(flight)` of the flight monitor service. -/
def determineStatusFromOpenSky (flight : Flight) : String :=
  if flight.on_ground then "on-ground"
  else if flight.altitude < 1000 then "taxiing"
  else if flight.altitude > 5000 then "in-flight"
  else "climbing"

/-- The live-data hash read back from the position cache; its fields are
stringified, so the on-ground flag is the string "true" or "false". -/
structure LiveData where
  on_ground : String
deriving DecidableEq, Repr

/-- `determineStatus(schedule, liveData)` of the passenger service. -/
def determineStatus (schedule : ScheduleRecord) (liveData : Option LiveData) : String :=
  if schedule.status = "cancelled" then "Cancelled"
  else if schedule.arrival.actual.isSome then "Landed"
  else if schedule.departure.actual.isSome then "In Flight"
  else if (match liveData with | some l => l.on_ground == "true" | none => false) then "Boarding"
  else if schedule.status = "delayed" then "Delayed"
  else "On Time"

/-! ## EnrichmentPipeline: the enrichment map of `getLiveFlights` -/

/-- The nested position block of an enriched flight. -/
structure PositionBlock where
  latitude : ℚ
  longitude : ℚ
  altitude : ℚ
  velocity : ℚ
  heading : ℚ
deriving DecidableEq, Repr

/-- One enriched flight as emitted by `getLiveFlights`. -/
structure EnrichedFlight where
  callsign : String
  origin_country : String
  position : PositionBlock
  latitude : ℚ
  longitude : ℚ
  altitude : ℚ
  velocity : ℚ
  heading : ℚ
  on_ground : Bool
  gate : String
  terminal : String
  status : String
  schedule : ScheduleRecord
  last_update : String
deriving DecidableEq, Repr

/-- The body of the enrichment `.map` of `getLiveFlights` for one live
position. -/
def enrichFlight (scheduleMap : List (String × ScheduleRecord)) (nowIso : String)
    (flight : Flight) : EnrichedFlight :=
  let schedule := matchSchedule scheduleMap flight.callsign
  { callsign := flight.callsign
    origin_country := jsOrS flight.origin_country "Unknown"
    position :=
      { latitude := jsOrQ flight.latitude 0
        longitude := jsOrQ flight.longitude 0
        altitude := if flight.altitude = 0 then 0 else flight.altitude
        velocity := if flight.velocity = 0 then 0 else flight.velocity
        heading := if flight.heading = 0 then 0 else flight.heading }
    latitude := jsOrQ flight.latitude 0
    longitude := jsOrQ flight.longitude 0
    altitude := if flight.altitude = 0 then 0 else flight.altitude
    velocity := if flight.velocity = 0 then 0 else flight.velocity
    heading := if flight.heading = 0 then 0 else flight.heading
    on_ground := flight.on_ground || false
    gate := jsOrS schedule.departure.gate "N/A"
    terminal := jsOrS schedule.departure.terminal "N/A"
    status := determineStatusFromOpenSky flight
    schedule := schedule
    last_update := jsOrStr flight.timestamp nowIso }

/-- The enrichment step of `getLiveFlights`: one enriched flight per live
position, in order. -/
def enrichFlights (scheduleMap : List (String × ScheduleRecord)) (nowIso : String)
    (positions : List Flight) : List EnrichedFlight :=
  positions.map (enrichFlight scheduleMap nowIso)

/-! ## Helper lemmas -/

lemma find?_key_eq :
    ∀ {m : List (String × ScheduleRecord)} {k : String} {s : ScheduleRecord},
      (m.map Prod.fst).Nodup → (k, s) ∈ m →
      m.find? (fun p => p.1 == k) = some (k, s) := by
  intro m
  induction m with
  | nil => intro k s _ h; simp at h
  | cons p t ih =>
    intro k s hnd hmem
    simp only [List.map_cons, List.nodup_cons] at hnd
    rcases List.mem_cons.mp hmem with h | h
    · subst h
      exact List.find?_cons_of_pos _ (by simp)
    · have hk : k ∈ t.map Prod.fst := List.mem_map.mpr ⟨(k, s), h, rfl⟩
      have hp1 : ¬ p.1 = k := fun e => hnd.1 (e ▸ hk)
      rw [List.find?_cons_of_neg _ (by simpa using hp1)]
      exact ih hnd.2 h

lemma jsObjectLookup_of_mem {m : List (String × ScheduleRecord)} {k : String}
    {s : ScheduleRecord} (hnd : (m.map Prod.fst).Nodup) (hmem : (k, s) ∈ m) :
    jsObjectLookup m k = some s := by
  unfold jsObjectLookup
  rw [find?_key_eq hnd hmem]
  rfl

lemma jsObjectLookup_eq_none {m : List (String × ScheduleRecord)} {k : String}
    (h : ∀ s, (k, s) ∉ m) : jsObjectLookup m k = none := by
  unfold jsObjectLookup
  rw [List.find?_eq_none.mpr]
  · rfl
  · rintro ⟨a, b⟩ hx
    simp only [beq_iff_eq]
    intro e
    exact h b (e ▸ hx)

/-! ## C1: the correlator matching policy -/

/-- C1: for every live position and schedule index (an association list in
insertion order, keyed by flight number), the matching block of
`getLiveFlights` returns the schedule whose flight number equals the
callsign when one exists; otherwise the first entry, in insertion order,
whose key contains the first two characters of the callsign or whose
aircraft registration equals the callsign; otherwise the synthesized
placeholder with airline "Unknown Airline", airports "Unknown Airport"
with IATA "N/A", gate and terminal "N/A", status "in-flight" and aircraft
registration equal to the callsign.  The exact match is always selected
over any fallback match. -/
theorem correlator_match_spec (smap : List (String × ScheduleRecord)) (cs : String)
    (hnd : (smap.map Prod.fst).Nodup)
    (hfn : ∀ p ∈ smap, p.2.flightNumber = p.1) :
    (∀ s : ScheduleRecord, (cs, s) ∈ smap →
      matchSchedule smap cs = s ∧ s.flightNumber = cs)
    ∧ ((∀ s, (cs, s) ∉ smap) → ∀ p, smap.find? (fallbackMatch cs) = some p →
      matchSchedule smap cs = p.2)
    ∧ ((∀ s, (cs, s) ∉ smap) → smap.find? (fallbackMatch cs) = none →
      matchSchedule smap cs = placeholderSchedule cs)
    ∧ (placeholderSchedule cs).airline = "Unknown Airline"
    ∧ (placeholderSchedule cs).departure.airport = some "Unknown Airport"
    ∧ (placeholderSchedule cs).departure.iata = some "N/A"
    ∧ (placeholderSchedule cs).arrival.airport = some "Unknown Airport"
    ∧ (placeholderSchedule cs).arrival.iata = some "N/A"
    ∧ (placeholderSchedule cs).departure.gate = some "N/A"
    ∧ (placeholderSchedule cs).departure.terminal = some "N/A"
    ∧ (placeholderSchedule cs).arrival.gate = some "N/A"
    ∧ (placeholderSchedule cs).arrival.terminal = some "N/A"
    ∧ (placeholderSchedule cs).status = "in-flight"
    ∧ (placeholderSchedule cs).aircraft.registration = some cs := by
  refine ⟨?_, ?_, ?_, rfl, rfl, rfl, rfl, rfl, rfl, rfl, rfl, rfl, rfl, rfl⟩
  · intro s hs
    refine ⟨?_, hfn (cs, s) hs⟩
    unfold matchSchedule
    rw [jsObjectLookup_of_mem hnd hs]
  · intro hno p hfind
    unfold matchSchedule
    rw [jsObjectLookup_eq_none hno, hfind]
  · intro hno hfind
    unfold matchSchedule
    rw [jsObjectLookup_eq_none hno, hfind]

/-- An endpoint with every field absent, for concrete test schedules. -/
def blankEndpoint : FlightEndpoint := ⟨none, none, none, none, none, none, none⟩

/-- A schedule matched by aircraft registration only. -/
def regSchedule : ScheduleRecord :=
  ⟨"XX999", "RegAir", "XX", blankEndpoint, blankEndpoint, "active",
    ⟨some "LH123", none, none⟩⟩

/-- A schedule matched exactly by flight number. -/
def exactSchedule : ScheduleRecord :=
  ⟨"LH123", "Lufthansa", "LH", blankEndpoint, blankEndpoint, "active",
    ⟨some "D-AIDE", none, none⟩⟩

/-- Witness for C1: with a registration match listed before the exact
match, callsign "LH123" still selects the exact flight-number match. -/
theorem correlator_match_spec_witness :
    matchSchedule [("XX999", regSchedule), ("LH123", exactSchedule)] "LH123" =
      exactSchedule :=
  ((correlator_match_spec [("XX999", regSchedule), ("LH123", exactSchedule)] "LH123"
      (by decide) (by decide)).1 exactSchedule (by decide)).1

/-! ## C2: status resolution -/

/-- C2: both status resolvers are total and follow their first-match-wins
decision orders: from a live position, on-ground, then altitude below
1000 ft (taxiing), then above 5000 ft (in-flight), else climbing; from a
schedule plus optional live flag, cancelled, then arrival actual (landed),
then departure actual (in flight), then live on-ground (boarding), then
delayed, else on time. -/
theorem statusResolver_spec (f : Flight) (sch : ScheduleRecord) (live : Option LiveData) :
    (f.on_ground = true → determineStatusFromOpenSky f = "on-ground")
    ∧ (f.on_ground = false → f.altitude < 1000 → determineStatusFromOpenSky f = "taxiing")
    ∧ (f.on_ground = false → ¬ f.altitude < 1000 → 5000 < f.altitude →
      determineStatusFromOpenSky f = "in-flight")
    ∧ (f.on_ground = false → ¬ f.altitude < 1000 → ¬ 5000 < f.altitude →
      determineStatusFromOpenSky f = "climbing")
    ∧ determineStatusFromOpenSky f ∈ ["on-ground", "taxiing", "in-flight", "climbing"]
    ∧ (sch.status = "cancelled" → determineStatus sch live = "Cancelled")
    ∧ (sch.status ≠ "cancelled" → sch.arrival.actual.isSome →
      determineStatus sch live = "Landed")
    ∧ (sch.status ≠ "cancelled" → sch.arrival.actual = none →
      sch.departure.actual.isSome → determineStatus sch live = "In Flight")
    ∧ (sch.status ≠ "cancelled" → sch.arrival.actual = none →
      sch.departure.actual = none → (∃ l, live = some l ∧ l.on_ground = "true") →
      determineStatus sch live = "Boarding")
    ∧ (sch.status ≠ "cancelled" → sch.arrival.actual = none →
      sch.departure.actual = none → (¬ ∃ l, live = some l ∧ l.on_ground = "true") →
      sch.status = "delayed" → determineStatus sch live = "Delayed")
    ∧ (sch.status ≠ "cancelled" → sch.arrival.actual = none →
      sch.departure.actual = none → (¬ ∃ l, live = some l ∧ l.on_ground = "true") →
      sch.status ≠ "delayed" → determineStatus sch live = "On Time")
    ∧ determineStatus sch live ∈
      ["Cancelled", "Landed", "In Flight", "Boarding", "Delayed", "On Time"] := by
  refine ⟨?_, ?_, ?_, ?_, ?_, ?_, ?_, ?_, ?_, ?_, ?_, ?_⟩
  · intro h; simp [determineStatusFromOpenSky, h]
  · intro h1 h2; simp [determineStatusFromOpenSky, h1, h2]
  · intro h1 h2 h3; simp [determineStatusFromOpenSky, h1, h2, h3]
  · intro h1 h2 h3; simp [determineStatusFromOpenSky, h1, h2, h3]
  · unfold determineStatusFromOpenSky; split_ifs <;> simp
  · intro h; simp [determineStatus, h]
  · intro h1 h2; simp [determineStatus, h1, h2]
  · intro h1 h2 h3; simp [determineStatus, h1, h2, h3]
  · rintro h1 h2 h3 ⟨l, rfl, hog⟩; simp [determineStatus, h1, h2, h3, hog]
  · intro h1 h2 h3 h4 h5
    cases live with
    | none => simp [determineStatus, h1, h2, h3, h5]
    | some l =>
      have : ¬ l.on_ground = "true" := fun e => h4 ⟨l, rfl, e⟩
      simp [determineStatus, h1, h2, h3, h5, this]
  · intro h1 h2 h3 h4 h5
    cases live with
    | none => simp [determineStatus, h1, h2, h3, h5]
    | some l =>
      have : ¬ l.on_ground = "true" := fun e => h4 ⟨l, rfl, e⟩
      simp [determineStatus, h1, h2, h3, h5, this]
  · unfold determineStatus; split_ifs <;> simp

/-! ## C5: deduplication -/

lemma removeDupAux_sublist (l : List DedupFlight) (seen : List String) :
    (removeDupAux l seen).Sublist l := by
  induction l generalizing seen with
  | nil => simp [removeDupAux]
  | cons f fs ih =>
    simp only [removeDupAux]
    split
    · exact (ih seen).trans (List.sublist_cons_self f fs)
    · exact List.Sublist.cons₂ f (ih _)

lemma removeDupAux_not_seen (l : List DedupFlight) (seen : List String) :
    ∀ g ∈ removeDupAux l seen, ¬ seen.contains (fingerprint g) = true := by
  induction l generalizing seen with
  | nil => simp [removeDupAux]
  | cons f fs ih =>
    intro g hg
    simp only [removeDupAux] at hg
    split at hg
    · exact ih seen g hg
    · rcases List.mem_cons.mp hg with h | h
      · subst h
        assumption
      · have := ih (fingerprint f :: seen) g h
        intro hc
        exact this (by simp at hc ⊢; exact Or.inr hc)

lemma removeDupAux_nodup (l : List DedupFlight) (seen : List String) :
    ((removeDupAux l seen).map fingerprint).Nodup := by
  induction l generalizing seen with
  | nil => simp [removeDupAux]
  | cons f fs ih =>
    simp only [removeDupAux]
    split
    · exact ih seen
    · simp only [List.map_cons, List.nodup_cons]
      refine ⟨?_, ih (fingerprint f :: seen)⟩
      intro hmem
      rcases List.mem_map.mp hmem with ⟨g, hg, he⟩
      have := removeDupAux_not_seen fs (fingerprint f :: seen) g hg
      exact this (by simp [he])

lemma removeDupAux_idem (l : List DedupFlight) (seen : List String) :
    removeDupAux (removeDupAux l seen) seen = removeDupAux l seen := by
  induction l generalizing seen with
  | nil => simp [removeDupAux]
  | cons f fs ih =>
    simp only [removeDupAux]
    split
    · exact ih seen
    · rename_i h
      simp only [removeDupAux, h, if_false]
      rw [ih (fingerprint f :: seen)]
      simp

lemma removeDupAux_find? (l : List DedupFlight) (seen : List String) (k : String)
    (hk : ¬ seen.contains k = true) :
    (removeDupAux l seen).find? (fun g => fingerprint g == k) =
      l.find? (fun g => fingerprint g == k) := by
  induction l generalizing seen with
  | nil => simp [removeDupAux]
  | cons f fs ih =>
    simp only [removeDupAux]
    by_cases he : fingerprint f = k
    · subst he
      rw [if_neg hk]
      rw [List.find?_cons_of_pos _ (by simp), List.find?_cons_of_pos _ (by simp)]
    · rw [List.find?_cons_of_neg _ (by simpa using he)]
      split
      · exact ih seen hk
      · rw [List.find?_cons_of_neg _ (by simpa using he)]
        refine ih (fingerprint f :: seen) ?_
        intro hc
        simp at hc hk
        rcases hc with hc | hc
        · exact he hc.symm
        · exact hk hc

/-- C5: deduplication keys each position by the fingerprint
callsign + "_" + lat.toFixed(3) + "_" + lon.toFixed(3); the output is an
order-preserving subsequence of the input with pairwise distinct
fingerprints in which the first occurrence of every fingerprint survives;
it is idempotent; and the two concrete positions that agree after
3-decimal rounding leave exactly the first one. -/
theorem dedup_spec (xs : List DedupFlight) (k : String) :
    removeDuplicateFlights (removeDuplicateFlights xs) = removeDuplicateFlights xs
    ∧ (removeDuplicateFlights xs).Sublist xs
    ∧ ((removeDuplicateFlights xs).map fingerprint).Nodup
    ∧ (removeDuplicateFlights xs).find? (fun g => fingerprint g == k) =
      xs.find? (fun g => fingerprint g == k)
    ∧ removeDuplicateFlights
        [⟨"LH123", 50.038, 8.562⟩, ⟨"LH123", 50.0381, 8.5621⟩] =
      [⟨"LH123", 50.038, 8.562⟩] := by
  refine ⟨removeDupAux_idem xs [], removeDupAux_sublist xs [],
    removeDupAux_nodup xs [], removeDupAux_find? xs [] k (by simp), ?_⟩
  have efloor1 : (⌊|(50.0381 : ℚ)| * 1000 + 1 / 2⌋) = 50038 := by
    rw [abs_of_nonneg (by norm_num), Int.floor_eq_iff]; norm_num
  have efloor1' : (⌊|(50.038 : ℚ)| * 1000 + 1 / 2⌋) = 50038 := by
    rw [abs_of_nonneg (by norm_num), Int.floor_eq_iff]; norm_num
  have efloor2 : (⌊|(8.5621 : ℚ)| * 1000 + 1 / 2⌋) = 8562 := by
    rw [abs_of_nonneg (by norm_num), Int.floor_eq_iff]; norm_num
  have efloor2' : (⌊|(8.562 : ℚ)| * 1000 + 1 / 2⌋) = 8562 := by
    rw [abs_of_nonneg (by norm_num), Int.floor_eq_iff]; norm_num
  have efp : fingerprint ⟨"LH123", 50.0381, 8.5621⟩ =
      fingerprint ⟨"LH123", 50.038, 8.562⟩ := by
    unfold fingerprint fixed3
    rw [if_neg (by norm_num : ¬ (50.0381 : ℚ) < 0),
      if_neg (by norm_num : ¬ (50.038 : ℚ) < 0),
      if_neg (by norm_num : ¬ (8.5621 : ℚ) < 0),
      if_neg (by norm_num : ¬ (8.562 : ℚ) < 0),
      efloor1, efloor1', efloor2, efloor2']
  simp [removeDuplicateFlights, removeDupAux, efp]

/-- A live position at 8000 ft, airborne. -/
def airborneFlight : Flight :=
  ⟨"LH123", none, some 8.5622, some 50.0379, 8000, 450, 90, 0, false, none, "t0"⟩

/-! ## C3: the zone filter -/

/-- The order produced by the stable distance sort: strictly smaller
distance first, ties broken by the original input index. -/
def stableOrder (a b : TrackedFlight) : Prop :=
  a.distance < b.distance ∨ (a.distance = b.distance ∧ a.index < b.index)

lemma stableOrder_le {a b : TrackedFlight} (h : stableOrder a b) :
    a.distance ≤ b.distance := by
  rcases h with h | ⟨h, _⟩
  · exact le_of_lt h
  · exact le_of_eq h

lemma insertByDistance_perm (x : TrackedFlight) (l : List TrackedFlight) :
    (insertByDistance x l).Perm (x :: l) := by
  induction l with
  | nil => simp [insertByDistance]
  | cons y ys ih =>
    simp only [insertByDistance]
    split
    · exact List.Perm.refl _
    · exact (ih.cons y).trans (List.Perm.swap x y ys)

lemma mem_insertByDistance {z x : TrackedFlight} {l : List TrackedFlight} :
    z ∈ insertByDistance x l ↔ z = x ∨ z ∈ l := by
  rw [(insertByDistance_perm x l).mem_iff]
  simp

lemma insertByDistance_pairwise {x : TrackedFlight} {l : List TrackedFlight}
    (hl : l.Pairwise stableOrder) (hx : ∀ y ∈ l, y.index < x.index) :
    (insertByDistance x l).Pairwise stableOrder := by
  induction l with
  | nil => simp [insertByDistance]
  | cons y ys ih =>
    simp only [insertByDistance]
    split
    · rename_i hlt
      refine List.Pairwise.cons ?_ hl
      intro z hz
      rcases List.mem_cons.mp hz with rfl | hz
      · exact Or.inl hlt
      · exact Or.inl (lt_of_lt_of_le hlt
          (stableOrder_le ((List.pairwise_cons.mp hl).1 z hz)))
    · rename_i hnlt
      have hyx : stableOrder y x := by
        rcases lt_or_eq_of_le (le_of_not_lt hnlt) with h | h
        · exact Or.inl h
        · exact Or.inr ⟨h, hx y (List.mem_cons_self y ys)⟩
      refine List.Pairwise.cons ?_
        (ih (List.pairwise_cons.mp hl).2
          (fun z hz => hx z (List.mem_cons_of_mem y hz)))
      intro z hz
      rcases mem_insertByDistance.mp hz with rfl | hz
      · exact hyx
      · exact (List.pairwise_cons.mp hl).1 z hz

lemma foldl_insert_perm (l acc : List TrackedFlight) :
    (l.foldl (fun acc x => insertByDistance x acc) acc).Perm (acc ++ l) := by
  induction l generalizing acc with
  | nil => simp
  | cons x xs ih =>
    simp only [List.foldl_cons]
    refine (ih (insertByDistance x acc)).trans ?_
    refine (((insertByDistance_perm x acc).append_right xs).trans ?_)
    exact List.perm_middle.symm

lemma foldl_insert_pairwise (l acc : List TrackedFlight)
    (hacc : acc.Pairwise stableOrder)
    (hl : l.Pairwise (fun a b => a.index < b.index))
    (hcross : ∀ y ∈ acc, ∀ x ∈ l, y.index < x.index) :
    (l.foldl (fun acc x => insertByDistance x acc) acc).Pairwise stableOrder := by
  induction l generalizing acc with
  | nil => simpa
  | cons x xs ih =>
    simp only [List.foldl_cons]
    refine ih (insertByDistance x acc)
      (insertByDistance_pairwise hacc
        (fun y hy => hcross y hy x (List.mem_cons_self _ _)))
      (List.pairwise_cons.mp hl).2 ?_
    intro y hy z hz
    rcases mem_insertByDistance.mp hy with rfl | hy
    · exact (List.pairwise_cons.mp hl).1 z hz
    · exact hcross y hy z (List.mem_cons_of_mem x hz)

lemma enumFrom_fst_pairwise {α : Type} (n : ℕ) (l : List α) :
    (List.enumFrom n l).Pairwise (fun p q => p.1 < q.1) := by
  induction l generalizing n with
  | nil => simp
  | cons a t ih =>
    simp only [List.enumFrom]
    refine List.Pairwise.cons ?_ (ih (n + 1))
    rintro ⟨i, x⟩ hq
    have := (List.mem_enumFrom hq).1
    omega

lemma attachDistances_pairwise (dist : Flight → ℚ) (l : List Flight) :
    (attachDistances dist l).Pairwise (fun a b => a.index < b.index) := by
  unfold attachDistances
  rw [List.pairwise_map]
  exact enumFrom_fst_pairwise 0 l

/-- Three live positions at the reference distances of the zone filter test. -/
def flightA : Flight := ⟨"AAA", none, some 8.6, some 50.1, 5000, 300, 0, 0, false, none, "t0"⟩

/-- Second test position. -/
def flightB : Flight := ⟨"BBB", none, some 9.2, some 50.5, 6000, 320, 0, 0, false, none, "t0"⟩

/-- Third test position (outside the 200 km zone). -/
def flightC : Flight := ⟨"CCC", none, some 12.0, some 52.2, 7000, 340, 0, 0, false, none, "t0"⟩

/-- A concrete distance assignment: 10, 60 and 250 km. -/
def distExample : Flight → ℚ := fun f =>
  if f.callsign = "AAA" then 10 else if f.callsign = "BBB" then 60 else 250

/-- C3: the zone filter computes a distance for every position, retains
exactly those within the radius (a permutation of the filtered
distance-attached input), and returns them ascending by distance with
ties broken by the original input order; on positions at distances 10,
60 and 250 km with radius 200, exactly the first two survive, in order. -/
theorem zone_filter_spec (dist : Flight → ℚ) (radius : ℚ) (l : List Flight) :
    (filterAndSortFlights dist radius l).Perm
      ((attachDistances dist l).filter (fun t => t.distance ≤ radius))
    ∧ (filterAndSortFlights dist radius l).Pairwise stableOrder
    ∧ filterAndSortFlights distExample 200 [flightA, flightB, flightC] =
      [⟨flightA, 10, 0⟩, ⟨flightB, 60, 1⟩] := by
  refine ⟨?_, ?_, ?_⟩
  · unfold filterAndSortFlights sortByDistance
    exact List.Perm.filter _ (by simpa using foldl_insert_perm (attachDistances dist l) [])
  · unfold filterAndSortFlights sortByDistance
    exact List.Pairwise.filter _
      (foldl_insert_pairwise _ [] (by simp) (attachDistances_pairwise dist l) (by simp))
  · simp [filterAndSortFlights, attachDistances, sortByDistance, insertByDistance,
      distExample, flightA, flightB, flightC, List.enum, List.enumFrom]
    norm_num

/-! ## C7: the haversine distance -/

/-- C7, amended: the great-circle distance is symmetric and vanishes on
identical coordinate pairs; it is not, however, nonzero on every pair of
distinct coordinate pairs (see the counterexample at the pole). -/
theorem distance_symm_zero (lat1 lon1 lat2 lon2 : ℝ) :
    calculateDistance lat1 lon1 lat2 lon2 = calculateDistance lat2 lon2 lat1 lon1
    ∧ calculateDistance lat1 lon1 lat1 lon1 = 0 := by
  constructor
  · have key : Real.sin (toRad (lat2 - lat1) / 2) * Real.sin (toRad (lat2 - lat1) / 2) +
        Real.cos (toRad lat1) * Real.cos (toRad lat2) *
          (Real.sin (toRad (lon2 - lon1) / 2) * Real.sin (toRad (lon2 - lon1) / 2)) =
        Real.sin (toRad (lat1 - lat2) / 2) * Real.sin (toRad (lat1 - lat2) / 2) +
        Real.cos (toRad lat2) * Real.cos (toRad lat1) *
          (Real.sin (toRad (lon1 - lon2) / 2) * Real.sin (toRad (lon1 - lon2) / 2)) := by
      rw [show toRad (lat2 - lat1) = -toRad (lat1 - lat2) from by unfold toRad; ring,
        show toRad (lon2 - lon1) = -toRad (lon1 - lon2) from by unfold toRad; ring,
        neg_div, neg_div, Real.sin_neg, Real.sin_neg]
      ring
    simp only [calculateDistance]
    rw [key]
  · simp only [calculateDistance]
    rw [show toRad (lat1 - lat1) = 0 from by unfold toRad; ring,
      show toRad (lon1 - lon1) = 0 from by unfold toRad; ring]
    simp only [zero_div, Real.sin_zero, mul_zero, zero_mul, zero_add, add_zero,
      Real.sqrt_zero, sub_zero, Real.sqrt_one]
    rw [show atan2 0 1 = 0 from by
      unfold atan2
      rw [if_pos one_pos]
      simp [Real.arctan_zero]]
    ring

/-- Counterexample for C7 as stated: the two distinct coordinate pairs
(90, 0) and (90, 10) at the north pole have distance zero. -/
theorem distance_zero_counterexample :
    calculateDistance 90 0 90 10 = 0
    ∧ ((90 : ℝ), (0 : ℝ)) ≠ ((90 : ℝ), (10 : ℝ)) := by
  constructor
  · simp only [calculateDistance]
    rw [show toRad (90 - 90 : ℝ) = 0 from by unfold toRad; ring,
      show Real.cos (toRad (90 : ℝ)) = 0 from by
        rw [show toRad (90 : ℝ) = Real.pi / 2 from by unfold toRad; ring]
        exact Real.cos_pi_div_two]
    simp only [zero_div, Real.sin_zero, mul_zero, zero_mul, zero_add, add_zero,
      Real.sqrt_zero, sub_zero, Real.sqrt_one]
    rw [show atan2 0 1 = 0 from by
      unfold atan2
      rw [if_pos one_pos]
      simp [Real.arctan_zero]]
    ring
  · intro h
    have := congrArg Prod.snd h
    norm_num at this

/-! ## C4 and C8: the bounding-box tiler -/

/-- Latitude of the grid tile center in row `i`, as computed inside
`calculateBoundingBoxes`. -/
def tileLat (centerLat radiusKm : ℚ) (i : ℕ) : ℚ :=
  centerLat +
    (((i : ℚ) - (((⌈radiusKm / 500⌉).toNat : ℚ) - 1) / 2) * (500 - 50)) / 111.32

/-- Longitude of the grid tile center in column `j`, as computed inside
`calculateBoundingBoxes`. -/
def tileLon (cosDeg : ℚ → ℚ) (centerLat centerLon radiusKm : ℚ) (j : ℕ) : ℚ :=
  centerLon +
    (((j : ℚ) - (((⌈radiusKm / 500⌉).toNat : ℚ) - 1) / 2) * (500 - 50)) /
      (111.32 * cosDeg centerLat)

lemma grid_length (n : ℕ) (g : ℕ → ℕ → Box) :
    (((List.range n).map (fun i => (List.range n).map (g i))).flatten).length = n * n := by
  rw [List.length_flatten, List.map_map]
  have h1 : ((List.range n).map (List.length ∘ fun i => (List.range n).map (g i))) =
      List.replicate n n := by
    refine List.eq_replicate_iff.mpr ⟨by simp, ?_⟩
    intro b hb
    rcases List.mem_map.mp hb with ⟨i, _, rfl⟩
    simp
  rw [h1, List.sum_replicate, smul_eq_mul]

lemma mem_calculateBoundingBoxes {cosDeg : ℚ → ℚ} {clat clon r : ℚ}
    (h : ¬ r ≤ 500) (b : Box) :
    b ∈ calculateBoundingBoxes cosDeg clat clon r ↔
      ∃ i j : ℕ, i < (⌈r / 500⌉).toNat ∧ j < (⌈r / 500⌉).toNat ∧
        b = createBoundingBox cosDeg (tileLat clat r i) (tileLon cosDeg clat clon r j)
          (500 / 2) := by
  unfold calculateBoundingBoxes
  rw [if_neg h]
  simp only [List.mem_flatten, List.mem_map, List.mem_range]
  constructor
  · rintro ⟨inner, ⟨i, hi, rfl⟩, hbin⟩
    rcases List.mem_map.mp hbin with ⟨j, hj, rfl⟩
    exact ⟨i, j, hi, List.mem_range.mp hj, rfl⟩
  · rintro ⟨i, j, hi, hj, rfl⟩
    refine ⟨_, ⟨i, hi, rfl⟩, ?_⟩
    exact List.mem_map.mpr ⟨j, List.mem_range.mpr hj, rfl⟩

/-- C4: for a radius up to 500 km the tiler returns exactly one box built
from the km-to-degree conversion (111.32 km per degree latitude, the
longitude scaled by the cosine of the center latitude) and clamped; for a
larger radius it returns exactly n-by-n half-size (250 km) boxes, n the
ceiling of radius over 500, whose centers are offset by
(i - (n-1)/2) * 450 km per axis; at radius 1200 it returns 9 boxes. -/
theorem tiler_spec (cosDeg : ℚ → ℚ) (centerLat centerLon radiusKm : ℚ) :
    (radiusKm ≤ 500 →
      calculateBoundingBoxes cosDeg centerLat centerLon radiusKm =
        [{ lamin := max (-90) (centerLat - radiusKm / 111.32)
           lomin := max (-180) (centerLon - radiusKm / (111.32 * cosDeg centerLat))
           lamax := min 90 (centerLat + radiusKm / 111.32)
           lomax := min 180 (centerLon + radiusKm / (111.32 * cosDeg centerLat)) }])
    ∧ (500 < radiusKm →
      (calculateBoundingBoxes cosDeg centerLat centerLon radiusKm).length =
        (⌈radiusKm / 500⌉).toNat * (⌈radiusKm / 500⌉).toNat
      ∧ ∀ b : Box, b ∈ calculateBoundingBoxes cosDeg centerLat centerLon radiusKm ↔
          ∃ i j : ℕ, i < (⌈radiusKm / 500⌉).toNat ∧ j < (⌈radiusKm / 500⌉).toNat ∧
            b = createBoundingBox cosDeg (tileLat centerLat radiusKm i)
              (tileLon cosDeg centerLat centerLon radiusKm j) 250)
    ∧ (calculateBoundingBoxes cosDeg centerLat centerLon 1200).length = 9 := by
  refine ⟨?_, ?_, ?_⟩
  · intro h
    simp [calculateBoundingBoxes, createBoundingBox, h]
  · intro h
    constructor
    · unfold calculateBoundingBoxes
      rw [if_neg (not_le.mpr h)]
      exact grid_length _ _
    · intro b
      rw [mem_calculateBoundingBoxes (not_le.mpr h) b,
        show (500 : ℚ) / 2 = 250 from by norm_num]
  · have hn : ((⌈(1200 : ℚ) / 500⌉ : ℤ)).toNat = 3 := by
      rw [show ⌈(1200 : ℚ) / 500⌉ = 3 from by rw [Int.ceil_eq_iff]; norm_num]
      rfl
    unfold calculateBoundingBoxes
    rw [if_neg (by norm_num)]
    simp only [hn]
    exact (grid_length 3 _).trans (by norm_num)

/-- Witness for C4: a 300 km radius around (50, 8) yields the single
clamped box of the km-to-degree conversion. -/
theorem tiler_spec_witness :
    calculateBoundingBoxes (fun _ => 1) 50 8 300 =
      [{ lamin := max (-90) (50 - 300 / 111.32)
         lomin := max (-180) (8 - 300 / (111.32 * 1))
         lamax := min 90 (50 + 300 / 111.32)
         lomax := min 180 (8 + 300 / (111.32 * 1)) }] :=
  (tiler_spec (fun _ => 1) 50 8 300).1 (by norm_num)

lemma createBoundingBox_range_bounds (cosDeg : ℚ → ℚ) (clat clon h : ℚ) :
    -90 ≤ (createBoundingBox cosDeg clat clon h).lamin
    ∧ (createBoundingBox cosDeg clat clon h).lamax ≤ 90
    ∧ -180 ≤ (createBoundingBox cosDeg clat clon h).lomin
    ∧ (createBoundingBox cosDeg clat clon h).lomax ≤ 180 :=
  ⟨le_max_left _ _, min_le_left _ _, le_max_left _ _, min_le_left _ _⟩

lemma createBoundingBox_ordered (cosDeg : ℚ → ℚ) (clat clon h : ℚ)
    (h1 : -90 ≤ clat) (h2 : clat ≤ 90) (h3 : -180 ≤ clon) (h4 : clon ≤ 180)
    (hh : 0 ≤ h) (hc : 0 ≤ cosDeg clat) :
    (createBoundingBox cosDeg clat clon h).lamin ≤
      (createBoundingBox cosDeg clat clon h).lamax
    ∧ (createBoundingBox cosDeg clat clon h).lomin ≤
      (createBoundingBox cosDeg clat clon h).lomax := by
  have hd1 : 0 ≤ h / 111.32 := by positivity
  have hd2 : 0 ≤ h / (111.32 * cosDeg clat) :=
    div_nonneg hh (mul_nonneg (by norm_num) hc)
  constructor
  · show max (-90) (clat - h / 111.32) ≤ min 90 (clat + h / 111.32)
    exact le_min (max_le (by norm_num) (by linarith))
      (max_le (by linarith) (by linarith))
  · show max (-180) (clon - h / (111.32 * cosDeg clat)) ≤
      min 180 (clon + h / (111.32 * cosDeg clat))
    exact le_min (max_le (by norm_num) (by linarith))
      (max_le (by linarith) (by linarith))

/-- C8, amended: every emitted box satisfies the clamp range bounds
(latMin at least -90, latMax at most 90, lonMin at least -180, lonMax at
most 180) for every input; the ordering half of the invariant
(latMin at most latMax, lonMin at most lonMax) holds in the single-box
case for a valid center, non-negative radius and non-negative cosine, and
in the grid case whenever every tile center remains a valid coordinate
with non-negative cosine — but not unconditionally. -/
theorem box_invariant_spec (cosDeg : ℚ → ℚ) (centerLat centerLon radiusKm : ℚ) :
    (∀ b ∈ calculateBoundingBoxes cosDeg centerLat centerLon radiusKm,
      -90 ≤ b.lamin ∧ b.lamax ≤ 90 ∧ -180 ≤ b.lomin ∧ b.lomax ≤ 180)
    ∧ (radiusKm ≤ 500 → 0 ≤ radiusKm → -90 ≤ centerLat → centerLat ≤ 90 →
      -180 ≤ centerLon → centerLon ≤ 180 → 0 ≤ cosDeg centerLat →
      ∀ b ∈ calculateBoundingBoxes cosDeg centerLat centerLon radiusKm,
        b.lamin ≤ b.lamax ∧ b.lomin ≤ b.lomax)
    ∧ (500 < radiusKm →
      (∀ i j : ℕ, i < (⌈radiusKm / 500⌉).toNat → j < (⌈radiusKm / 500⌉).toNat →
        -90 ≤ tileLat centerLat radiusKm i ∧ tileLat centerLat radiusKm i ≤ 90 ∧
        -180 ≤ tileLon cosDeg centerLat centerLon radiusKm j ∧
        tileLon cosDeg centerLat centerLon radiusKm j ≤ 180 ∧
        0 ≤ cosDeg (tileLat centerLat radiusKm i)) →
      ∀ b ∈ calculateBoundingBoxes cosDeg centerLat centerLon radiusKm,
        b.lamin ≤ b.lamax ∧ b.lomin ≤ b.lomax) := by
  refine ⟨?_, ?_, ?_⟩
  · intro b hb
    by_cases hr : radiusKm ≤ 500
    · unfold calculateBoundingBoxes at hb
      rw [if_pos hr] at hb
      rcases List.mem_singleton.mp hb with rfl
      exact createBoundingBox_range_bounds _ _ _ _
    · rcases (mem_calculateBoundingBoxes hr b).mp hb with ⟨i, j, _, _, rfl⟩
      exact createBoundingBox_range_bounds _ _ _ _
  · intro hr h0 h1 h2 h3 h4 hc b hb
    unfold calculateBoundingBoxes at hb
    rw [if_pos hr] at hb
    rcases List.mem_singleton.mp hb with rfl
    exact createBoundingBox_ordered _ _ _ _ h1 h2 h3 h4 h0 hc
  · intro hr hvalid b hb
    rcases (mem_calculateBoundingBoxes (not_le.mpr hr) b).mp hb with ⟨i, j, hi, hj, rfl⟩
    rcases hvalid i j hi hj with ⟨v1, v2, v3, v4, v5⟩
    exact createBoundingBox_ordered _ _ _ _ v1 v2 v3 v4 (by norm_num) v5

/-- Witness for C8: the single 300 km box around the valid center (50, 8)
satisfies the ordering half of the invariant. -/
theorem box_invariant_spec_witness :
    (createBoundingBox (fun _ => 1) 50 8 300).lamin ≤
      (createBoundingBox (fun _ => 1) 50 8 300).lamax := by
  have h := (box_invariant_spec (fun _ => 1) 50 8 300).2.1 (by norm_num) (by norm_num)
    (by norm_num) (by norm_num) (by norm_num) (by norm_num) (by norm_num)
  refine (h (createBoundingBox (fun _ => 1) 50 8 300) ?_).1
  unfold calculateBoundingBoxes
  rw [if_pos (by norm_num : (300 : ℚ) ≤ 500)]
  exact List.mem_singleton.mpr rfl

/-- Counterexample for C8 as stated: at center (89, 0) with radius 1200
the grid pushes a tile center past the north pole and the emitted box has
latMin greater than latMax. -/
theorem box_invariant_counterexample :
    ¬ ∀ b ∈ calculateBoundingBoxes (fun _ => 1) 89 0 1200,
      -90 ≤ b.lamin ∧ b.lamax ≤ 90 ∧ -180 ≤ b.lomin ∧ b.lomax ≤ 180
      ∧ b.lamin ≤ b.lamax ∧ b.lomin ≤ b.lomax := by
  intro hall
  have hn : ((⌈(1200 : ℚ) / 500⌉ : ℤ)).toNat = 3 := by
    rw [show ⌈(1200 : ℚ) / 500⌉ = 3 from by rw [Int.ceil_eq_iff]; norm_num]
    rfl
  have hmem : createBoundingBox (fun _ => 1) (tileLat 89 1200 2)
      (tileLon (fun _ => 1) 89 0 1200 0) (500 / 2) ∈
      calculateBoundingBoxes (fun _ => 1) 89 0 1200 := by
    rw [mem_calculateBoundingBoxes (by norm_num)]
    exact ⟨2, 0, by rw [hn]; norm_num, by rw [hn]; norm_num, rfl⟩
  have hcon := (hall _ hmem).2.2.2.2.1
  simp only [createBoundingBox, tileLat, hn] at hcon
  rw [max_eq_right (by norm_num), min_eq_left (by norm_num)] at hcon
  norm_num at hcon

/-! ## C6: the normalizer -/

/-- C6, amended: the normalizer is total by construction and converts
altitude meters to feet (times 3.28084) and velocity m/s to knots (times
1.94384), defaulting absent or zero fields to 0, false or "UNKNOWN".
Altitude and velocity outputs are non-negative whenever the raw values
are non-negative or absent; latitude and longitude are passed through
unchanged, so they are in range exactly when the raw values are. -/
theorem normalizer_spec (nowIso : String) (s : RawState)
    (ha : ∀ a ∈ s.baro_altitude, 0 ≤ a) (hv : ∀ v ∈ s.velocity, 0 ≤ v) :
    0 ≤ (normalizeState nowIso s).altitude
    ∧ 0 ≤ (normalizeState nowIso s).velocity
    ∧ (normalizeState nowIso s).latitude = s.latitude
    ∧ (normalizeState nowIso s).longitude = s.longitude
    ∧ (∀ a, s.baro_altitude = some a → a ≠ 0 →
      (normalizeState nowIso s).altitude = a * 3.28084)
    ∧ ((s.baro_altitude = none ∨ s.baro_altitude = some 0) →
      (normalizeState nowIso s).altitude = 0)
    ∧ (∀ v, s.velocity = some v → v ≠ 0 →
      (normalizeState nowIso s).velocity = v * 1.94384)
    ∧ ((s.velocity = none ∨ s.velocity = some 0) →
      (normalizeState nowIso s).velocity = 0)
    ∧ ((s.callsign = none ∨ s.callsign = some "") →
      (normalizeState nowIso s).callsign = "UNKNOWN")
    ∧ (s.on_ground = none → (normalizeState nowIso s).on_ground = false)
    ∧ ((s.heading = none ∨ s.heading = some 0) →
      (normalizeState nowIso s).heading = 0) := by
  refine ⟨?_, ?_, rfl, rfl, ?_, ?_, ?_, ?_, ?_, ?_, ?_⟩
  · show 0 ≤ (if truthyQ s.baro_altitude then s.baro_altitude.getD 0 * 3.28084 else 0)
    split
    · rename_i ht
      cases hsome : s.baro_altitude with
      | none => simp [hsome, truthyQ] at ht
      | some a =>
        have h0 : 0 ≤ a := ha a (by simp [hsome])
        simp only [hsome, Option.getD_some]
        positivity
    · exact le_refl 0
  · show 0 ≤ (if truthyQ s.velocity then s.velocity.getD 0 * 1.94384 else 0)
    split
    · rename_i ht
      cases hsome : s.velocity with
      | none => simp [hsome, truthyQ] at ht
      | some v =>
        have h0 : 0 ≤ v := hv v (by simp [hsome])
        simp only [hsome, Option.getD_some]
        positivity
    · exact le_refl 0
  · intro a hsa hne
    simp [normalizeState, hsa, truthyQ, hne]
  · rintro (h | h) <;> simp [normalizeState, h, truthyQ]
  · intro v hsv hne
    simp [normalizeState, hsv, truthyQ, hne]
  · rintro (h | h) <;> simp [normalizeState, h, truthyQ]
  · rintro (h | h) <;> simp [normalizeState, h, truthyS]
  · intro h; simp [normalizeState, h]
  · rintro (h | h) <;> simp [normalizeState, h, truthyQ]

/-- A raw state with a negative barometric altitude and an out-of-range
latitude, as the telemetry feed can deliver. -/
def badRawState : RawState :=
  ⟨some "TEST", none, none, some 200, some 200, some (-10), none, none, none, none⟩

/-- Counterexample for C6 as stated: a raw altitude of -10 m yields a
negative altitude in feet, and an out-of-range latitude is passed through
unchanged, so the output invariant claimed for every raw record fails. -/
theorem normalizer_invariant_counterexample :
    (normalizeState "t0" badRawState).altitude < 0
    ∧ (normalizeState "t0" badRawState).latitude = some 200 := by
  constructor
  · show (if truthyQ (some (-10 : ℚ)) then (-10 : ℚ) * 3.28084 else 0) < 0
    rw [if_pos (by norm_num [truthyQ])]
    norm_num
  · rfl

/-- A fully populated raw state with non-negative altitude and velocity. -/
def goodRawState : RawState :=
  ⟨some "DLH123 ", some "Germany", some 1700000000, some 8.5622, some 50.0379,
    some 1000, some false, some 100, some 90, some 5⟩

/-- Witness for C6: the amended invariant holds on a concrete raw state. -/
theorem normalizer_spec_witness :
    0 ≤ (normalizeState "t0" goodRawState).altitude ∧
    (normalizeState "t0" goodRawState).latitude = some 50.0379 :=
  ⟨(normalizer_spec "t0" goodRawState
      (by intro a h; simp [goodRawState] at h; rw [← h]; norm_num)
      (by intro v h; simp [goodRawState] at h; rw [← h]; norm_num)).1,
   (normalizer_spec "t0" goodRawState
      (by intro a h; simp [goodRawState] at h; rw [← h]; norm_num)
      (by intro v h; simp [goodRawState] at h; rw [← h]; norm_num)).2.2.1⟩

/-! ## C9: upstream failure handling -/

/-- C9, amended: the telemetry fetch never throws and returns an empty
collection on a transport failure or a malformed or empty payload; the
schedule fetch never throws but falls back to the built-in three-record
sample dataset, not an empty collection, on every failure shape. -/
theorem fetch_failure_spec (dist : Flight → ℚ) (radius : ℚ) (nowIso : String)
    (now : ℤ) (hasKey : Bool) :
    getOpenSkyFlights dist radius nowIso .transportError = []
    ∧ getOpenSkyFlights dist radius nowIso .missingStates = []
    ∧ getOpenSkyFlights dist radius nowIso (.states []) = []
    ∧ getOpenSkyFlights dist radius nowIso (.states [none, none]) = []
    ∧ getAviationStackFlights hasKey now .transportError = generateSampleFlights now
    ∧ getAviationStackFlights hasKey now .missingData = generateSampleFlights now
    ∧ getAviationStackFlights hasKey now .errorField = generateSampleFlights now
    ∧ getAviationStackFlights hasKey now .emptyData = generateSampleFlights now
    ∧ (generateSampleFlights now).length = 3 := by
  cases hasKey <;>
    simp [getOpenSkyFlights, getAviationStackFlights, generateSampleFlights]

/-- Counterexample for C9 as stated: on a transport failure the schedule
fetch does not return an empty collection. -/
theorem fetch_failure_counterexample :
    getAviationStackFlights true 0 .transportError ≠ [] := by
  simp [getAviationStackFlights, generateSampleFlights]

/-! ## C10: the enrichment step -/

/-- C10: enrichment emits exactly one enriched flight per live position,
in input order, each with the (never absent) matched schedule attached and
with string gate and terminal fields that fall back to "N/A" when the
matched schedule lacks them. -/
theorem enrichment_spec (scheduleMap : List (String × ScheduleRecord))
    (nowIso : String) (ps : List Flight) :
    (enrichFlights scheduleMap nowIso ps).length = ps.length
    ∧ (∀ (i : ℕ) (h : i < ps.length),
      (enrichFlights scheduleMap nowIso ps)[i]? =
        some (enrichFlight scheduleMap nowIso ps[i]))
    ∧ (∀ f : Flight,
      (enrichFlight scheduleMap nowIso f).callsign = f.callsign
      ∧ (enrichFlight scheduleMap nowIso f).schedule = matchSchedule scheduleMap f.callsign
      ∧ ((matchSchedule scheduleMap f.callsign).departure.gate = none ∨
          (matchSchedule scheduleMap f.callsign).departure.gate = some "" →
        (enrichFlight scheduleMap nowIso f).gate = "N/A")
      ∧ ((matchSchedule scheduleMap f.callsign).departure.terminal = none ∨
          (matchSchedule scheduleMap f.callsign).departure.terminal = some "" →
        (enrichFlight scheduleMap nowIso f).terminal = "N/A")) := by
  refine ⟨List.length_map ps _, ?_, ?_⟩
  · intro i h
    rw [enrichFlights, List.getElem?_map, List.getElem?_eq_getElem h]
    rfl
  · intro f
    refine ⟨rfl, rfl, ?_, ?_⟩
    · rintro (h | h) <;> simp [enrichFlight, h, jsOrS]
    · rintro (h | h) <;> simp [enrichFlight, h, jsOrS]

/-- Witness for C10: a singleton list of live positions enriches to the
corresponding singleton, and a schedule without a gate yields gate "N/A". -/
theorem enrichment_spec_witness :
    (enrichFlights [("LH123", exactSchedule)] "t0" [airborneFlight])[0]? =
      some (enrichFlight [("LH123", exactSchedule)] "t0" airborneFlight) ∧
    (enrichFlight [("LH123", exactSchedule)] "t0" airborneFlight).gate = "N/A" :=
  ⟨(enrichment_spec [("LH123", exactSchedule)] "t0" [airborneFlight]).2.1 0 (by simp),
   ((enrichment_spec [("LH123", exactSchedule)] "t0" [airborneFlight]).2.2
      airborneFlight).2.2.1 (Or.inl (by decide))⟩

/-- Witness for C2: an airborne flight at 8000 ft resolves to in-flight,
and a cancelled schedule resolves to Cancelled. -/
theorem statusResolver_spec_witness :
    determineStatusFromOpenSky airborneFlight = "in-flight" ∧
    determineStatus
      ⟨"LH123", "Lufthansa", "LH", blankEndpoint, blankEndpoint, "cancelled",
        ⟨none, none, none⟩⟩ none = "Cancelled" :=
  ⟨(statusResolver_spec airborneFlight
      ⟨"LH123", "Lufthansa", "LH", blankEndpoint, blankEndpoint, "cancelled",
        ⟨none, none, none⟩⟩ none).2.2.1 rfl (by norm_num [airborneFlight])
      (by norm_num [airborneFlight]),
   (statusResolver_spec airborneFlight
      ⟨"LH123", "Lufthansa", "LH", blankEndpoint, blankEndpoint, "cancelled",
        ⟨none, none, none⟩⟩ none).2.2.2.2.2.1 rfl⟩

end AirportTracking
